import Mathlib

/-!
# Sensirion SCD40 CO2 sensor driver (`scd40.c`, `scd40.h`)

A shallow embedding of the driver functions of `scd40.c` over an abstract bus
transport, followed by theorems about the unit conversions, the retry loop of
`scd40_read_measurement`, the argument validation of the setters and the settle
delays.

Conventions.
* C `uint16_t` / `uint8_t` / `uint64_t` values are `Nat`, with an explicit
  `% 2^w` where the C code converts to the type.
* C `int16_t` status codes and `int32_t` values are `Int`; 32-bit signed
  arithmetic is made explicit through `int32`.
* The bus transport (`sensirion_i2c_*`, `sensirion_sleep_usec`) is not part of
  the driver. It is a parameter `t : Transport`: a function giving the outcome
  of a transport call from the whole history of calls made so far. The driver
  functions thread that history (`List Event`) explicitly.
-/

namespace SCD40

/-! ## Transport collaborator -/

/-- Calls the driver makes on the transport collaborator. -/
inductive Event where
  | write_cmd (address command : Nat)
  | write_cmd_with_args (address command : Nat) (args : List Nat)
  | read_words (address num_words : Nat)
  | delayed_read_cmd (address command delay_us num_words : Nat)
  | sleep_usec (useconds : Nat)
  deriving DecidableEq, Repr

/-- Outcome of one transport call: the `int16_t` status, and for a read the
words it stored in the caller's buffer. -/
structure Reply where
  ret : Int
  words : List Nat
  deriving DecidableEq, Repr

/-- The transport: the outcome of the call that is last in the given history. -/
abbrev Transport := List Event → Reply

/-- Durations of the `sensirion_sleep_usec` calls in a list of events, in order. -/
def sleeps : List Event → List Nat
  | [] => []
  | Event.sleep_usec us :: rest => us :: sleeps rest
  | _ :: rest => sleeps rest

/-- Number of `sensirion_i2c_read_words` calls in a list of events. -/
def read_attempts : List Event → Nat
  | [] => 0
  | Event.read_words _ _ :: rest => read_attempts rest + 1
  | _ :: rest => read_attempts rest

/-- The transport's `sensirion_i2c_write_cmd(address, command)`: the call is
recorded and the transport decides its status. -/
def sensirion_i2c_write_cmd (t : Transport) (tr : List Event) (address command : Nat) :
    Int × List Event :=
  let tr1 := tr ++ [Event.write_cmd address command]
  ((t tr1).ret, tr1)

/-- The transport's `sensirion_i2c_write_cmd_with_args(address, command, args, n)`. -/
def sensirion_i2c_write_cmd_with_args (t : Transport) (tr : List Event)
    (address command : Nat) (args : List Nat) : Int × List Event :=
  let tr1 := tr ++ [Event.write_cmd_with_args address command args]
  ((t tr1).ret, tr1)

/-- The transport's `sensirion_i2c_read_words(address, words, n)`: status, buffer
contents and history. -/
def sensirion_i2c_read_words (t : Transport) (tr : List Event) (address num_words : Nat) :
    Int × List Nat × List Event :=
  let tr1 := tr ++ [Event.read_words address num_words]
  ((t tr1).ret, (t tr1).words, tr1)

/-- The transport's `sensirion_i2c_delayed_read_cmd(address, cmd, delay_us, words, n)`. -/
def sensirion_i2c_delayed_read_cmd (t : Transport) (tr : List Event)
    (address command delay_us num_words : Nat) : Int × List Nat × List Event :=
  let tr1 := tr ++ [Event.delayed_read_cmd address command delay_us num_words]
  ((t tr1).ret, (t tr1).words, tr1)

/-- The transport's `sensirion_sleep_usec(useconds)`. -/
def sensirion_sleep_usec (tr : List Event) (useconds : Nat) : List Event :=
  tr ++ [Event.sleep_usec useconds]

/-! ## Machine integers -/

/-- Conversion to `int32_t` (two's complement wrap-around). -/
def int32 (x : Int) : Int := (x + 2147483648) % 4294967296 - 2147483648

/-- Conversion to `uint16_t`. -/
def uint16 (x : Int) : Nat := (x % 65536).toNat

/-- Conversion to `uint8_t`. -/
def uint8 (x : Int) : Nat := (x % 256).toNat

/-- Conversion to `uint64_t`. -/
def uint64 (x : Nat) : Nat := x % 18446744073709551616

/-- Element `i` of a `uint16_t` buffer filled by the transport. -/
def word (words : List Nat) (i : Nat) : Nat := words.getD i 0 % 65536

/-! ## Constants of `scd40.h` and `scd40.c` -/

def SCD40_I2C_ADDRESS : Nat := 0x62

/-- The macro `SCD40_INVALID_VALUE`, `(-(1 << 14))`. -/
def SCD40_INVALID_VALUE : Int := -(((1 : Nat) <<< 14 : Nat) : Int)

def SCD40_CMD_COMMIT_EEPROM : Nat := 0x3615
def SCD40_CMD_COMMIT_EEPROM_DURATION_US : Nat := 6000000
def SCD40_CMD_FACTORY_RESET : Nat := 0x3632
def SCD40_CMD_READ_AUTO_SELF_CALIBRATION : Nat := 0x2313
def SCD40_CMD_READ_MEASUREMENT_NUM_TRIES : Nat := 3
def SCD40_CMD_READ_FEATURE_SET_VERSION : Nat := 0x202f
def SCD40_CMD_READ_SERIAL : Nat := 0x3682
def SCD40_CMD_RESET : Nat := 0x3646
def SCD40_CMD_SET_ALTITUDE : Nat := 0x2427
def SCD40_CMD_SET_AMBIENT_PRESSURE : Nat := 0xE000
def SCD40_CMD_SET_FORCED_RECALIBRATION : Nat := 0x362F
def SCD40_CMD_SET_TEMPERATURE_OFFSET : Nat := 0x241D
def SCD40_CMD_START_PERIODIC_MEASUREMENT_HIGH_PERFORMANCE : Nat := 0x21B1
def SCD40_CMD_START_PERIODIC_MEASUREMENT_LOW_POWER : Nat := 0x21AC
def SCD40_CMD_START_PERIODIC_MEASUREMENT_ULTRA_LOW_POWER : Nat := 0x21A7
def SCD40_CMD_STOP_PERIODIC_MEASUREMENT : Nat := 0x3F86
def SCD40_CMD_STOP_PERIODIC_MEASUREMENT_DURATION_USEC : Nat := 30000
def SCD40_CMD_SINGLE_SHOT_MEASUREMENT : Nat := 0x2196
def SCD40_CMD_WRITE_AUTO_SELF_CALIBRATION : Nat := 0x2416
def SCD40_CMD_SHORT_DURATION_US : Nat := 10000

/-- The macro `SCD40_FEATURE_SET_MAJOR_VERSION(fs)`, `(((fs)&0xE0) >> 5)`. -/
def SCD40_FEATURE_SET_MAJOR_VERSION (fs : Nat) : Nat := (fs &&& 0xE0) >>> 5

/-- The macro `SCD40_FEATURE_SET_MINOR_VERSION(fs)`, `((fs)&0x1F)`. -/
def SCD40_FEATURE_SET_MINOR_VERSION (fs : Nat) : Nat := fs &&& 0x1F

/-! ## Measurement -/

/-- The three locations `scd40_read_measurement` writes through its pointers. -/
structure Measurement where
  co2_ppm : Nat
  temperature : Int
  humidity : Int
  deriving DecidableEq, Repr

/-- The expression `((21875 * (int32_t)words[1]) >> 13) - 45000` in `int32_t`
arithmetic. -/
def temperature_of_word (w : Nat) : Int :=
  int32 (int32 (int32 (21875 * int32 (w : Int)) >>> (13 : Nat)) - 45000)

/-- The expression `((12500 * (int32_t)words[2]) >> 13)` in `int32_t` arithmetic. -/
def humidity_of_word (w : Nat) : Int :=
  int32 (int32 (12500 * int32 (w : Int)) >>> (13 : Nat))

/-- The `for` loop of `scd40_read_measurement`. The first argument is the number
of iterations left, `SCD40_CMD_READ_MEASUREMENT_NUM_TRIES - tries`; `ret` and
`words` are the locals the loop assigns. -/
def read_measurement_loop (t : Transport) :
    Nat → Int → List Nat → List Event → Int × List Nat × List Event
  | 0, ret, words, tr => (ret, words, tr)
  | left + 1, _, _, tr =>
    let r := sensirion_i2c_read_words t tr SCD40_I2C_ADDRESS 3
    if r.1 = 0 then
      (r.1, r.2.1, r.2.2)
    else
      read_measurement_loop t left r.1 r.2.1 (sensirion_sleep_usec r.2.2 100000)

/-- The function `scd40_read_measurement`. `out` holds the previous contents of
`*co2_ppm`, `*temperature`, `*humidity`; the result is the status, their new
contents and the history. The local `ret` is indeterminate before the loop
(here `0`); the loop body runs at least once and assigns it. -/
def scd40_read_measurement (t : Transport) (tr : List Event) (out : Measurement) :
    Int × Measurement × List Event :=
  let r := read_measurement_loop t SCD40_CMD_READ_MEASUREMENT_NUM_TRIES 0 [] tr
  if r.1 ≠ 0 then
    (r.1, out, r.2.2)
  else
    (0, Measurement.mk (word r.2.1 0) (temperature_of_word (word r.2.1 1))
      (humidity_of_word (word r.2.1 2)), r.2.2)

/-! ## Commands -/

/-- Modelled from the spec: the constant `STATUS_OK` of `sensirion_common.h`,
which is not part of the driver sources; status `0` is success. -/
def STATUS_OK : Int := 0

/-- The function `scd40_start_periodic_measurement_cmd`; the argument list of the
write is empty (`NULL, 0`). -/
def scd40_start_periodic_measurement_cmd (t : Transport) (tr : List Event) (cmd : Nat) :
    Int × List Event :=
  let r := sensirion_i2c_write_cmd_with_args t tr SCD40_I2C_ADDRESS cmd []
  if r.1 ≠ 0 then
    (r.1, r.2)
  else
    (0, sensirion_sleep_usec r.2 SCD40_CMD_SHORT_DURATION_US)

/-- The function `scd40_start_periodic_measurement`. -/
def scd40_start_periodic_measurement (t : Transport) (tr : List Event) : Int × List Event :=
  scd40_start_periodic_measurement_cmd t tr
    SCD40_CMD_START_PERIODIC_MEASUREMENT_HIGH_PERFORMANCE

/-- The function `scd40_start_low_power_periodic_measurement`. -/
def scd40_start_low_power_periodic_measurement (t : Transport) (tr : List Event) :
    Int × List Event :=
  scd40_start_periodic_measurement_cmd t tr SCD40_CMD_START_PERIODIC_MEASUREMENT_LOW_POWER

/-- The function `scd40_start_ultra_low_power`. -/
def scd40_start_ultra_low_power (t : Transport) (tr : List Event) : Int × List Event :=
  scd40_start_periodic_measurement_cmd t tr
    SCD40_CMD_START_PERIODIC_MEASUREMENT_ULTRA_LOW_POWER

/-- The function `scd40_stop_periodic_measurement`. -/
def scd40_stop_periodic_measurement (t : Transport) (tr : List Event) : Int × List Event :=
  let r := sensirion_i2c_write_cmd t tr SCD40_I2C_ADDRESS SCD40_CMD_STOP_PERIODIC_MEASUREMENT
  if r.1 ≠ 0 then
    (r.1, r.2)
  else
    (0, sensirion_sleep_usec r.2 SCD40_CMD_STOP_PERIODIC_MEASUREMENT_DURATION_USEC)

/-- The function `scd40_measure_co2_temperature_and_humidity`. -/
def scd40_measure_co2_temperature_and_humidity (t : Transport) (tr : List Event) :
    Int × List Event :=
  let r := sensirion_i2c_write_cmd t tr SCD40_I2C_ADDRESS SCD40_CMD_SINGLE_SHOT_MEASUREMENT
  if r.1 ≠ 0 then
    (r.1, r.2)
  else
    (0, sensirion_sleep_usec r.2 SCD40_CMD_SHORT_DURATION_US)

/-- The function `scd40_set_temperature_offset`. The local `offset` is
`(uint16_t)(temperature_offset >> 3) * 3` stored into a `uint16_t`. -/
def scd40_set_temperature_offset (t : Transport) (tr : List Event) (temperature_offset : Int) :
    Int × List Event :=
  if temperature_offset < 0 ∨ temperature_offset > 174760 then
    (SCD40_INVALID_VALUE, tr)
  else
    let offset : Nat := uint16 ((uint16 (temperature_offset >>> (3 : Nat)) : Int) * 3)
    let r := sensirion_i2c_write_cmd_with_args t tr SCD40_I2C_ADDRESS
      SCD40_CMD_SET_TEMPERATURE_OFFSET [offset]
    if r.1 ≠ 0 then
      (r.1, r.2)
    else
      (0, sensirion_sleep_usec r.2 SCD40_CMD_SHORT_DURATION_US)

/-- The function `scd40_set_altitude`. -/
def scd40_set_altitude (t : Transport) (tr : List Event) (altitude_meters : Nat) :
    Int × List Event :=
  let r := sensirion_i2c_write_cmd_with_args t tr SCD40_I2C_ADDRESS SCD40_CMD_SET_ALTITUDE
    [altitude_meters]
  if r.1 ≠ 0 then
    (r.1, r.2)
  else
    (0, sensirion_sleep_usec r.2 SCD40_CMD_SHORT_DURATION_US)

/-- The function `scd40_set_ambient_pressure`. The local `sig_p` is
`pressure_pascal * 100` stored into a `uint16_t`, computed before the range
check. -/
def scd40_set_ambient_pressure (t : Transport) (tr : List Event) (pressure_pascal : Nat) :
    Int × List Event :=
  let sig_p : Nat := uint16 ((pressure_pascal : Int) * 100)
  if pressure_pascal > 655 then
    (SCD40_INVALID_VALUE, tr)
  else
    let r := sensirion_i2c_write_cmd_with_args t tr SCD40_I2C_ADDRESS
      SCD40_CMD_SET_AMBIENT_PRESSURE [sig_p]
    if r.1 ≠ 0 then
      (r.1, r.2)
    else
      (0, sensirion_sleep_usec r.2 SCD40_CMD_SHORT_DURATION_US)

/-- The function `scd40_get_automatic_self_calibration`. `asc_enabled` is the
previous content of `*asc_enabled`; the result is the status, its new content
and the history. -/
def scd40_get_automatic_self_calibration (t : Transport) (tr : List Event) (asc_enabled : Nat) :
    Int × Nat × List Event :=
  let r := sensirion_i2c_delayed_read_cmd t tr SCD40_I2C_ADDRESS
    SCD40_CMD_READ_AUTO_SELF_CALIBRATION SCD40_CMD_SHORT_DURATION_US 1
  if r.1 ≠ STATUS_OK then
    (r.1, asc_enabled, r.2.2)
  else
    (STATUS_OK, uint8 (word r.2.1 0), r.2.2)

/-- The function `scd40_enable_automatic_self_calibration`; `asc` is
`!!enable_asc`. -/
def scd40_enable_automatic_self_calibration (t : Transport) (tr : List Event)
    (enable_asc : Nat) : Int × List Event :=
  let asc : Nat := if enable_asc ≠ 0 then 1 else 0
  let r := sensirion_i2c_write_cmd_with_args t tr SCD40_I2C_ADDRESS
    SCD40_CMD_WRITE_AUTO_SELF_CALIBRATION [asc]
  (r.1, sensirion_sleep_usec r.2 SCD40_CMD_SHORT_DURATION_US)

/-- The function `scd40_set_forced_recalibration`. -/
def scd40_set_forced_recalibration (t : Transport) (tr : List Event) (co2_ppm : Nat) :
    Int × List Event :=
  let r := sensirion_i2c_write_cmd_with_args t tr SCD40_I2C_ADDRESS
    SCD40_CMD_SET_FORCED_RECALIBRATION [co2_ppm]
  (r.1, sensirion_sleep_usec r.2 SCD40_CMD_SHORT_DURATION_US)

/-- The function `scd40_read_serial`. `serial` is the previous content of
`*serial`; each `(uint64_t)words[i] << k` is a 64-bit shift. -/
def scd40_read_serial (t : Transport) (tr : List Event) (serial : Nat) :
    Int × Nat × List Event :=
  let r := sensirion_i2c_delayed_read_cmd t tr SCD40_I2C_ADDRESS SCD40_CMD_READ_SERIAL
    SCD40_CMD_SHORT_DURATION_US 3
  if r.1 ≠ 0 then
    (r.1, serial, r.2.2)
  else
    (0, uint64 (uint64 (word r.2.1 0) <<< 4) ||| uint64 (uint64 (word r.2.1 1) <<< 2) |||
      uint64 (word r.2.1 2), r.2.2)

/-- The function `scd40_probe`. -/
def scd40_probe (t : Transport) (tr : List Event) : Int × List Event :=
  scd40_stop_periodic_measurement t tr

/-- The function `scd40_read_feature_set_version`: the transport's status and
the word it stored in `*feature_set`. -/
def scd40_read_feature_set_version (t : Transport) (tr : List Event) :
    Int × Nat × List Event :=
  let r := sensirion_i2c_delayed_read_cmd t tr SCD40_I2C_ADDRESS
    SCD40_CMD_READ_FEATURE_SET_VERSION SCD40_CMD_SHORT_DURATION_US 1
  (r.1, word r.2.1 0, r.2.2)

/-- The function `scd40_factory_reset`. -/
def scd40_factory_reset (t : Transport) (tr : List Event) : Int × List Event :=
  let r := sensirion_i2c_write_cmd t tr SCD40_I2C_ADDRESS SCD40_CMD_FACTORY_RESET
  if r.1 ≠ 0 then
    (r.1, r.2)
  else
    (0, sensirion_sleep_usec r.2 SCD40_CMD_COMMIT_EEPROM_DURATION_US)

/-- The function `scd40_reset`. -/
def scd40_reset (t : Transport) (tr : List Event) : Int × List Event :=
  let r := sensirion_i2c_write_cmd t tr SCD40_I2C_ADDRESS SCD40_CMD_RESET
  if r.1 ≠ 0 then
    (r.1, r.2)
  else
    (0, sensirion_sleep_usec r.2 SCD40_CMD_SHORT_DURATION_US)

/-- The function `scd40_persist_settings`. -/
def scd40_persist_settings (t : Transport) (tr : List Event) : Int × List Event :=
  let r := sensirion_i2c_write_cmd t tr SCD40_I2C_ADDRESS SCD40_CMD_COMMIT_EEPROM
  if r.1 ≠ 0 then
    (r.1, r.2)
  else
    (0, sensirion_sleep_usec r.2 SCD40_CMD_COMMIT_EEPROM_DURATION_US)

/-! ## Transports and histories used in the statements -/

/-- The event of one `sensirion_i2c_read_words` call of `scd40_read_measurement`. -/
def read_event : Event := Event.read_words SCD40_I2C_ADDRESS 3

/-- The event of the 100 ms back-off of `scd40_read_measurement`. -/
def backoff_event : Event := Event.sleep_usec 100000

/-- Events of `k` failed attempts of `scd40_read_measurement`: each a read
followed by the back-off sleep. -/
def failed_attempts : Nat → List Event
  | 0 => []
  | k + 1 => read_event :: backoff_event :: failed_attempts k

/-- A transport on which every call succeeds, reads delivering `words`. -/
def always_ok (words : List Nat) : Transport := fun _ => Reply.mk 0 words

/-- A transport on which every call fails with status `err`. -/
def always_fail (err : Int) : Transport := fun _ => Reply.mk err []

/-- A transport that fails with status `err` while the history holds fewer than
`n` events and afterwards succeeds, reads delivering `words`. -/
def fail_until (n : Nat) (err : Int) (words : List Nat) : Transport :=
  fun history => if history.length < n then Reply.mk err [] else Reply.mk 0 words

/-- Outcome of a command that writes the event `w` and settles for `d`
microseconds only after an accepted write. -/
def settled (t : Transport) (tr : List Event) (w : Event) (d : Nat) : Int × List Event :=
  if (t (tr ++ [w])).ret = 0 then
    (0, tr ++ [w, Event.sleep_usec d])
  else
    ((t (tr ++ [w])).ret, tr ++ [w])

/-! ## Theorems -/

/-- In range, the conversion to `int32_t` changes nothing. -/
theorem int32_of_range (x : Int) (h1 : -2147483648 ≤ x) (h2 : x < 2147483648) :
    int32 x = x := by
  unfold int32
  omega

/-- The temperature expression never leaves the `int32_t` range on a 16-bit
word, so it is the plain integer expression. -/
theorem temperature_of_word_exact (w : Nat) (h : w < 65536) :
    temperature_of_word w = ((21875 * (w : Int)) >>> (13 : Nat)) - 45000 := by
  have hs : ∀ x : Int, x >>> (13 : Nat) = x / 8192 := fun x => by
    rw [Int.shiftRight_eq_div_pow]; norm_num
  unfold temperature_of_word
  rw [int32_of_range (w : Int) (by omega) (by omega),
    int32_of_range (21875 * (w : Int)) (by omega) (by omega), hs,
    int32_of_range (21875 * (w : Int) / 8192) (by omega) (by omega),
    int32_of_range (21875 * (w : Int) / 8192 - 45000) (by omega) (by omega)]

/-- The humidity expression never leaves the `int32_t` range on a 16-bit word. -/
theorem humidity_of_word_exact (w : Nat) (h : w < 65536) :
    humidity_of_word w = (12500 * (w : Int)) >>> (13 : Nat) := by
  have hs : ∀ x : Int, x >>> (13 : Nat) = x / 8192 := fun x => by
    rw [Int.shiftRight_eq_div_pow]; norm_num
  unfold humidity_of_word
  rw [int32_of_range (w : Int) (by omega) (by omega),
    int32_of_range (12500 * (w : Int)) (by omega) (by omega), hs,
    int32_of_range (12500 * (w : Int) / 8192) (by omega) (by omega)]

/-- The retry loop after `k` failed reads and a successful one, with at least
`k + 1` iterations left: it stops at the successful read. -/
theorem read_measurement_loop_success (t : Transport) (k : Nat) :
    ∀ (m : Nat) (ret : Int) (words : List Nat) (tr : List Event),
      (∀ j, j < k → (t (tr ++ failed_attempts j ++ [read_event])).ret ≠ 0) →
      (t (tr ++ failed_attempts k ++ [read_event])).ret = 0 →
      read_measurement_loop t (k + 1 + m) ret words tr =
        (0, (t (tr ++ failed_attempts k ++ [read_event])).words,
          tr ++ failed_attempts k ++ [read_event]) := by
  induction k with
  | zero =>
    intro m ret words tr _ hok
    have hok0 : (t (tr ++ [Event.read_words SCD40_I2C_ADDRESS 3])).ret = 0 := by
      simpa [failed_attempts, read_event] using hok
    rw [show 0 + 1 + m = m + 1 by omega]
    simp [read_measurement_loop, sensirion_i2c_read_words, failed_attempts, read_event, hok0]
  | succ k ih =>
    intro m ret words tr hfail hok
    have h0 : (t (tr ++ [Event.read_words SCD40_I2C_ADDRESS 3])).ret ≠ 0 := by
      simpa [failed_attempts, read_event] using hfail 0 (by omega)
    have hshift : ∀ j, tr ++ failed_attempts (j + 1) ++ [read_event] =
        (tr ++ [Event.read_words SCD40_I2C_ADDRESS 3] ++ [Event.sleep_usec 100000]) ++
          failed_attempts j ++ [read_event] := by
      intro j
      simp [failed_attempts, read_event, backoff_event]
    rw [show k + 1 + 1 + m = (k + 1 + m) + 1 by omega]
    rw [read_measurement_loop]
    simp only [sensirion_i2c_read_words, sensirion_sleep_usec, h0, if_false]
    rw [ih m _ _ _ (fun j hj => by rw [← hshift]; exact hfail (j + 1) (by omega))
      (by rw [← hshift]; exact hok), ← hshift]

/-- C1. A successful transport read of `scd40_read_measurement` (the first read,
or the read after one or two failed ones) delivering the 16-bit words
`w0, w1, w2` makes it return 0 with `co2_ppm = w0`,
`temperature = ((21875 * w1) >> 13) - 45000` and `humidity = (12500 * w2) >> 13`;
the `int32_t` arithmetic of the code never wraps. -/
theorem read_measurement_converts (t : Transport) (tr : List Event) (out : Measurement)
    (k w0 w1 w2 : Nat) (hk : k < SCD40_CMD_READ_MEASUREMENT_NUM_TRIES)
    (hfail : ∀ j, j < k → (t (tr ++ failed_attempts j ++ [read_event])).ret ≠ 0)
    (hok : t (tr ++ failed_attempts k ++ [read_event]) = Reply.mk 0 [w0, w1, w2])
    (h0 : w0 < 65536) (h1 : w1 < 65536) (h2 : w2 < 65536) :
    scd40_read_measurement t tr out =
      ((0 : Int), Measurement.mk w0 (((21875 * (w1 : Int)) >>> (13 : Nat)) - 45000)
        ((12500 * (w2 : Int)) >>> (13 : Nat)), tr ++ failed_attempts k ++ [read_event]) := by
  have hm : SCD40_CMD_READ_MEASUREMENT_NUM_TRIES = k + 1 + (2 - k) := by
    unfold SCD40_CMD_READ_MEASUREMENT_NUM_TRIES at hk ⊢
    omega
  unfold scd40_read_measurement
  rw [hm, read_measurement_loop_success t k (2 - k) 0 [] tr hfail (by rw [hok])]
  simp only [hok, ne_eq, not_true_eq_false, if_false]
  have e0 : word [w0, w1, w2] 0 = w0 := by simp [word, Nat.mod_eq_of_lt h0]
  have e1 : word [w0, w1, w2] 1 = w1 := by simp [word, Nat.mod_eq_of_lt h1]
  have e2 : word [w0, w1, w2] 2 = w2 := by simp [word, Nat.mod_eq_of_lt h2]
  rw [e0, e1, e2, temperature_of_word_exact w1 h1, humidity_of_word_exact w2 h2]

/-- C1, the instance of the specification: the words `(800, 27000, 20000)` read
at the first attempt give `co2_ppm = 800`, `temperature = 27097` and
`humidity = 30517`. -/
theorem read_measurement_converts_witness :
    scd40_read_measurement (always_ok [800, 27000, 20000]) [] (Measurement.mk 0 0 0) =
      ((0 : Int), Measurement.mk 800 27097 30517, [read_event]) :=
  read_measurement_converts (always_ok [800, 27000, 20000]) [] (Measurement.mk 0 0 0)
    0 800 27000 20000 (by decide) (fun j hj => absurd hj (Nat.not_lt_zero j)) rfl
    (by decide) (by decide) (by decide)

/-- The retry loop when all of its `n` reads fail: it performs the `n` reads,
each followed by the back-off sleep, and ends with the status and buffer of the
last read. -/
theorem read_measurement_loop_failure (t : Transport) (n : Nat) :
    ∀ (ret : Int) (words : List Nat) (tr : List Event),
      (∀ j, j < n + 1 → (t (tr ++ failed_attempts j ++ [read_event])).ret ≠ 0) →
      read_measurement_loop t (n + 1) ret words tr =
        ((t (tr ++ failed_attempts n ++ [read_event])).ret,
          (t (tr ++ failed_attempts n ++ [read_event])).words,
          tr ++ failed_attempts (n + 1)) := by
  induction n with
  | zero =>
    intro ret words tr hfail
    have h0 : (t (tr ++ [Event.read_words SCD40_I2C_ADDRESS 3])).ret ≠ 0 := by
      simpa [failed_attempts, read_event] using hfail 0 (by omega)
    simp [read_measurement_loop, sensirion_i2c_read_words, sensirion_sleep_usec,
      failed_attempts, read_event, backoff_event, h0]
  | succ n ih =>
    intro ret words tr hfail
    have h0 : (t (tr ++ [Event.read_words SCD40_I2C_ADDRESS 3])).ret ≠ 0 := by
      simpa [failed_attempts, read_event] using hfail 0 (by omega)
    have hshift : ∀ j, tr ++ failed_attempts (j + 1) ++ [read_event] =
        (tr ++ [Event.read_words SCD40_I2C_ADDRESS 3] ++ [Event.sleep_usec 100000]) ++
          failed_attempts j ++ [read_event] := by
      intro j
      simp [failed_attempts, read_event, backoff_event]
    have hshift2 : ∀ j, tr ++ failed_attempts (j + 1) =
        (tr ++ [Event.read_words SCD40_I2C_ADDRESS 3] ++ [Event.sleep_usec 100000]) ++
          failed_attempts j := by
      intro j
      simp [failed_attempts, read_event, backoff_event]
    rw [read_measurement_loop]
    simp only [sensirion_i2c_read_words, sensirion_sleep_usec, h0, if_false]
    rw [ih _ _ _ (fun j hj => by rw [← hshift]; exact hfail (j + 1) (by omega)),
      ← hshift, ← hshift2]

/-- C2. After two failed transport reads, `scd40_read_measurement` reads a third
time. If that read succeeds with the 16-bit words `w0, w1, w2`, it returns 0 with
their converted values and has slept exactly twice, 100 ms each. If it fails too,
the function returns that read's non-zero status, leaves `co2_ppm`,
`temperature` and `humidity` as they were, and has made exactly three read
attempts. -/
theorem read_measurement_retries (t : Transport) (tr : List Event) (out : Measurement)
    (hf1 : (t (tr ++ [read_event])).ret ≠ 0)
    (hf2 : (t (tr ++ [read_event, backoff_event, read_event])).ret ≠ 0) :
    (∀ w0 w1 w2 : Nat, w0 < 65536 → w1 < 65536 → w2 < 65536 →
      t (tr ++ [read_event, backoff_event, read_event, backoff_event, read_event]) =
        Reply.mk 0 [w0, w1, w2] →
      (scd40_read_measurement t tr out).1 = 0 ∧
      (scd40_read_measurement t tr out).2.1 =
        Measurement.mk w0 (((21875 * (w1 : Int)) >>> (13 : Nat)) - 45000)
          ((12500 * (w2 : Int)) >>> (13 : Nat)) ∧
      (scd40_read_measurement t tr out).2.2 =
        tr ++ [read_event, backoff_event, read_event, backoff_event, read_event] ∧
      sleeps ((scd40_read_measurement t tr out).2.2.drop tr.length) = [100000, 100000]) ∧
    ((t (tr ++ [read_event, backoff_event, read_event, backoff_event, read_event])).ret ≠ 0 →
      (scd40_read_measurement t tr out).1 ≠ 0 ∧
      (scd40_read_measurement t tr out).1 =
        (t (tr ++ [read_event, backoff_event, read_event, backoff_event, read_event])).ret ∧
      (scd40_read_measurement t tr out).2.1 = out ∧
      (scd40_read_measurement t tr out).2.2 =
        tr ++ [read_event, backoff_event, read_event, backoff_event, read_event,
          backoff_event] ∧
      read_attempts ((scd40_read_measurement t tr out).2.2.drop tr.length) = 3) := by
  have e1 : tr ++ failed_attempts 0 ++ [read_event] = tr ++ [read_event] := by
    simp [failed_attempts]
  have e2 : tr ++ failed_attempts 1 ++ [read_event] =
      tr ++ [read_event, backoff_event, read_event] := by
    simp [failed_attempts]
  have e3 : tr ++ failed_attempts 2 ++ [read_event] =
      tr ++ [read_event, backoff_event, read_event, backoff_event, read_event] := by
    simp [failed_attempts]
  have hfail2 : ∀ j, j < 2 → (t (tr ++ failed_attempts j ++ [read_event])).ret ≠ 0 := by
    intro j hj
    interval_cases j
    · rw [e1]; exact hf1
    · rw [e2]; exact hf2
  constructor
  · intro w0 w1 w2 h0 h1 h2 hok
    have hfull := read_measurement_loop_success t 2 0 0 [] tr hfail2 (by rw [e3, hok])
    have hw0 : word [w0, w1, w2] 0 = w0 := by simp [word, Nat.mod_eq_of_lt h0]
    have hw1 : word [w0, w1, w2] 1 = w1 := by simp [word, Nat.mod_eq_of_lt h1]
    have hw2 : word [w0, w1, w2] 2 = w2 := by simp [word, Nat.mod_eq_of_lt h2]
    have hres : scd40_read_measurement t tr out =
        ((0 : Int), Measurement.mk w0 (((21875 * (w1 : Int)) >>> (13 : Nat)) - 45000)
          ((12500 * (w2 : Int)) >>> (13 : Nat)),
          tr ++ [read_event, backoff_event, read_event, backoff_event, read_event]) := by
      unfold scd40_read_measurement
      rw [show SCD40_CMD_READ_MEASUREMENT_NUM_TRIES = 2 + 1 + 0 from rfl, hfull, e3, hok]
      simp only [ne_eq, not_true_eq_false, if_false]
      rw [hw0, hw1, hw2, temperature_of_word_exact w1 h1, humidity_of_word_exact w2 h2]
    rw [hres]
    refine ⟨rfl, rfl, rfl, ?_⟩
    simp [sleeps, read_event, backoff_event]
  · intro hf3
    have hfail3 : ∀ j, j < 2 + 1 → (t (tr ++ failed_attempts j ++ [read_event])).ret ≠ 0 := by
      intro j hj
      interval_cases j
      · rw [e1]; exact hf1
      · rw [e2]; exact hf2
      · rw [e3]; exact hf3
    have hfull := read_measurement_loop_failure t 2 0 [] tr hfail3
    have hres : scd40_read_measurement t tr out =
        ((t (tr ++ [read_event, backoff_event, read_event, backoff_event, read_event])).ret,
          out, tr ++ [read_event, backoff_event, read_event, backoff_event, read_event,
            backoff_event]) := by
      unfold scd40_read_measurement
      rw [show SCD40_CMD_READ_MEASUREMENT_NUM_TRIES = 2 + 1 from rfl, hfull, e3]
      simp [hf3, failed_attempts]
    rw [hres]
    refine ⟨hf3, rfl, rfl, rfl, ?_⟩
    simp [read_attempts, read_event, backoff_event]

/-- C2 on two transports: one failing twice with status `-1` and then delivering
`(800, 27000, 20000)`, one failing always. -/
theorem read_measurement_retries_witness :
    ((scd40_read_measurement (fail_until 5 (-1) [800, 27000, 20000]) []
        (Measurement.mk 1 2 3)).1 = 0 ∧
      (scd40_read_measurement (fail_until 5 (-1) [800, 27000, 20000]) []
        (Measurement.mk 1 2 3)).2.1 = Measurement.mk 800 27097 30517 ∧
      sleeps ((scd40_read_measurement (fail_until 5 (-1) [800, 27000, 20000]) []
        (Measurement.mk 1 2 3)).2.2.drop 0) = [100000, 100000]) ∧
    ((scd40_read_measurement (always_fail (-1)) [] (Measurement.mk 1 2 3)).1 = -1 ∧
      (scd40_read_measurement (always_fail (-1)) [] (Measurement.mk 1 2 3)).2.1 =
        Measurement.mk 1 2 3 ∧
      read_attempts ((scd40_read_measurement (always_fail (-1)) []
        (Measurement.mk 1 2 3)).2.2.drop 0) = 3) := by
  have ha := (read_measurement_retries (fail_until 5 (-1) [800, 27000, 20000]) []
    (Measurement.mk 1 2 3) (by decide) (by decide)).1 800 27000 20000
    (by decide) (by decide) (by decide) rfl
  have hb := (read_measurement_retries (always_fail (-1)) [] (Measurement.mk 1 2 3)
    (by decide) (by decide)).2 (by decide)
  exact ⟨⟨ha.1, ha.2.1, ha.2.2.2⟩, ⟨hb.2.1, hb.2.2.1, hb.2.2.2.2⟩⟩

/-- Success and `SCD40_INVALID_VALUE` are different statuses. -/
theorem zero_ne_invalid_value : (0 : Int) ≠ SCD40_INVALID_VALUE := by
  decide

/-- C3, as stated, fails at the offset 174760: on a transport that accepts the
write, `scd40_set_temperature_offset` sends the word 65535, sleeps and returns 0
instead of `SCD40_INVALID_VALUE`. -/
theorem set_temperature_offset_accepts_174760 :
    scd40_set_temperature_offset (always_ok []) [] 174760 =
        ((0 : Int), [Event.write_cmd_with_args 0x62 0x241D [65535], Event.sleep_usec 10000]) ∧
      ¬ ((scd40_set_temperature_offset (always_ok []) [] 174760).1 = SCD40_INVALID_VALUE ↔
        ((174760 : Int) < 0 ∨ (174760 : Int) ≥ 174760)) := by
  decide

/-- C3, amended. On a transport whose own error statuses differ from
`SCD40_INVALID_VALUE`, `scd40_set_temperature_offset` returns
`SCD40_INVALID_VALUE` if and only if the offset is negative or greater than
174760 (the closed range `[0, 174760]` is accepted), and a rejected offset leaves
the transport untouched. -/
theorem set_temperature_offset_rejects_iff (t : Transport) (tr : List Event) (offset : Int)
    (ht : ∀ history, (t history).ret ≠ SCD40_INVALID_VALUE) :
    ((scd40_set_temperature_offset t tr offset).1 = SCD40_INVALID_VALUE ↔
        (offset < 0 ∨ offset > 174760)) ∧
      ((offset < 0 ∨ offset > 174760) → (scd40_set_temperature_offset t tr offset).2 = tr) := by
  unfold scd40_set_temperature_offset
  by_cases hr : offset < 0 ∨ offset > 174760
  · simp [hr]
  · simp only [hr, if_false, sensirion_i2c_write_cmd_with_args, false_implies, and_true,
      iff_false]
    split
    · exact ht _
    · exact zero_ne_invalid_value

/-- C3, amended, at the ends of the range on a transport that accepts every
write: 174760 and 0 are accepted, 174761 and -1 are rejected. -/
theorem set_temperature_offset_rejects_iff_witness :
    (scd40_set_temperature_offset (always_ok []) [] 174760).1 ≠ SCD40_INVALID_VALUE ∧
      (scd40_set_temperature_offset (always_ok []) [] 0).1 ≠ SCD40_INVALID_VALUE ∧
      (scd40_set_temperature_offset (always_ok []) [] 174761).1 = SCD40_INVALID_VALUE ∧
      (scd40_set_temperature_offset (always_ok []) [] (-1)).1 = SCD40_INVALID_VALUE := by
  have ht : ∀ history, (always_ok [] history).ret ≠ SCD40_INVALID_VALUE :=
    fun _ => zero_ne_invalid_value
  refine ⟨?_, ?_, ?_, ?_⟩
  · exact fun h =>
      absurd ((set_temperature_offset_rejects_iff (always_ok []) [] 174760 ht).1.mp h) (by decide)
  · exact fun h =>
      absurd ((set_temperature_offset_rejects_iff (always_ok []) [] 0 ht).1.mp h) (by decide)
  · exact (set_temperature_offset_rejects_iff (always_ok []) [] 174761 ht).1.mpr (by decide)
  · exact (set_temperature_offset_rejects_iff (always_ok []) [] (-1) ht).1.mpr (by decide)

/-- C4. For an offset in `[0, 174760)`, `scd40_set_temperature_offset` issues one
write, with opcode `0x241D` and the single argument word `w`, where `w` is
`(offset >> 3) * 3` as an unbounded integer and at most 65535; the only event
after the write is the settle sleep of the success path. -/
theorem set_temperature_offset_word (t : Transport) (tr : List Event) (offset : Int)
    (h0 : 0 ≤ offset) (h1 : offset < 174760) :
    ∃ w : Nat, (w : Int) = (offset >>> (3 : Nat)) * 3 ∧ w ≤ 65535 ∧
      (scd40_set_temperature_offset t tr offset).2 =
        tr ++ Event.write_cmd_with_args SCD40_I2C_ADDRESS 0x241D [w] ::
          (if (t (tr ++ [Event.write_cmd_with_args SCD40_I2C_ADDRESS 0x241D [w]])).ret = 0
            then [Event.sleep_usec 10000] else []) := by
  have hs : offset >>> (3 : Nat) = offset / 8 := by
    rw [Int.shiftRight_eq_div_pow]; norm_num
  have hr : ¬ (offset < 0 ∨ offset > 174760) := by omega
  have hw : ((uint16 ((uint16 (offset >>> (3 : Nat)) : Int) * 3) : Nat) : Int) =
      (offset >>> (3 : Nat)) * 3 := by
    rw [hs]
    unfold uint16
    omega
  refine ⟨uint16 ((uint16 (offset >>> (3 : Nat)) : Int) * 3), hw, ?_, ?_⟩
  · have : ((uint16 ((uint16 (offset >>> (3 : Nat)) : Int) * 3) : Nat) : Int) ≤ 65535 := by
      rw [hw, hs]; omega
    exact_mod_cast this
  · unfold scd40_set_temperature_offset
    simp only [hr, if_false, sensirion_i2c_write_cmd_with_args, sensirion_sleep_usec,
      SCD40_CMD_SET_TEMPERATURE_OFFSET, SCD40_CMD_SHORT_DURATION_US]
    split <;> simp_all

/-- C4 at the offset 174759, the largest of the range: the word written is
65535. -/
theorem set_temperature_offset_word_witness :
    ∃ w : Nat, (w : Int) = ((174759 : Int) >>> (3 : Nat)) * 3 ∧ w ≤ 65535 ∧
      (scd40_set_temperature_offset (always_ok []) [] 174759).2 =
        [] ++ Event.write_cmd_with_args SCD40_I2C_ADDRESS 0x241D [w] ::
          (if (always_ok [] ([] ++ [Event.write_cmd_with_args SCD40_I2C_ADDRESS 0x241D [w]])).ret
              = 0
            then [Event.sleep_usec 10000] else []) :=
  set_temperature_offset_word (always_ok []) [] 174759 (by decide) (by decide)

/-- C5. For a 16-bit pressure `p`: if `p ≤ 655`, `scd40_set_ambient_pressure`
issues one write with opcode `0xE000` and the single argument word `p * 100`,
which is at most 65535 (no wrap-around); if `p > 655` it returns
`SCD40_INVALID_VALUE` and calls nothing on the transport. -/
theorem set_ambient_pressure_word (t : Transport) (tr : List Event) (p : Nat)
    (hp : p < 65536) :
    (p ≤ 655 →
      p * 100 ≤ 65535 ∧
      (scd40_set_ambient_pressure t tr p).2 =
        tr ++ Event.write_cmd_with_args SCD40_I2C_ADDRESS 0xE000 [p * 100] ::
          (if (t (tr ++ [Event.write_cmd_with_args SCD40_I2C_ADDRESS 0xE000 [p * 100]])).ret = 0
            then [Event.sleep_usec 10000] else [])) ∧
    (p > 655 → scd40_set_ambient_pressure t tr p = (SCD40_INVALID_VALUE, tr)) := by
  constructor
  · intro hle
    have hw : uint16 ((p : Int) * 100) = p * 100 := by
      unfold uint16
      omega
    refine ⟨by omega, ?_⟩
    unfold scd40_set_ambient_pressure
    simp only [hw, show ¬ p > 655 by omega, if_false, sensirion_i2c_write_cmd_with_args,
      sensirion_sleep_usec, SCD40_CMD_SET_AMBIENT_PRESSURE, SCD40_CMD_SHORT_DURATION_US]
    split <;> simp_all
  · intro hgt
    unfold scd40_set_ambient_pressure
    simp [hgt]

/-- C5 at the two sides of the threshold: 655 is sent as 65500, 656 is
rejected. -/
theorem set_ambient_pressure_word_witness :
    (scd40_set_ambient_pressure (always_ok []) [] 655).2 =
        [Event.write_cmd_with_args 0x62 0xE000 [65500], Event.sleep_usec 10000] ∧
      scd40_set_ambient_pressure (always_ok []) [] 656 = (SCD40_INVALID_VALUE, []) :=
  ⟨((set_ambient_pressure_word (always_ok []) [] 655 (by decide)).1 (by decide)).2,
    (set_ambient_pressure_word (always_ok []) [] 656 (by decide)).2 (by decide)⟩

/-- The ten commands that return early on a failed write: each sleeps once, for
its own settle delay, exactly when the write was accepted, and returns the
transport's status. -/
theorem settle_delay_after_accepted_write (t : Transport) (tr : List Event) :
    scd40_start_periodic_measurement t tr =
        settled t tr (Event.write_cmd_with_args 0x62 0x21B1 []) 10000 ∧
      scd40_start_low_power_periodic_measurement t tr =
        settled t tr (Event.write_cmd_with_args 0x62 0x21AC []) 10000 ∧
      scd40_start_ultra_low_power t tr =
        settled t tr (Event.write_cmd_with_args 0x62 0x21A7 []) 10000 ∧
      scd40_stop_periodic_measurement t tr =
        settled t tr (Event.write_cmd 0x62 0x3F86) 30000 ∧
      (∀ offset : Int, 0 ≤ offset → offset ≤ 174760 →
        scd40_set_temperature_offset t tr offset =
          settled t tr (Event.write_cmd_with_args 0x62 0x241D
            [uint16 ((uint16 (offset >>> (3 : Nat)) : Int) * 3)]) 10000) ∧
      (∀ altitude : Nat, scd40_set_altitude t tr altitude =
        settled t tr (Event.write_cmd_with_args 0x62 0x2427 [altitude]) 10000) ∧
      (∀ p : Nat, p ≤ 655 → scd40_set_ambient_pressure t tr p =
        settled t tr (Event.write_cmd_with_args 0x62 0xE000 [uint16 ((p : Int) * 100)]) 10000) ∧
      scd40_reset t tr = settled t tr (Event.write_cmd 0x62 0x3646) 10000 ∧
      scd40_factory_reset t tr = settled t tr (Event.write_cmd 0x62 0x3632) 6000000 ∧
      scd40_persist_settings t tr = settled t tr (Event.write_cmd 0x62 0x3615) 6000000 := by
  refine ⟨?_, ?_, ?_, ?_, ?_, ?_, ?_, ?_, ?_, ?_⟩
  · unfold scd40_start_periodic_measurement scd40_start_periodic_measurement_cmd settled
    simp only [sensirion_i2c_write_cmd_with_args, sensirion_sleep_usec, SCD40_I2C_ADDRESS,
      SCD40_CMD_START_PERIODIC_MEASUREMENT_HIGH_PERFORMANCE, SCD40_CMD_SHORT_DURATION_US]
    split <;> simp_all
  · unfold scd40_start_low_power_periodic_measurement scd40_start_periodic_measurement_cmd
      settled
    simp only [sensirion_i2c_write_cmd_with_args, sensirion_sleep_usec, SCD40_I2C_ADDRESS,
      SCD40_CMD_START_PERIODIC_MEASUREMENT_LOW_POWER, SCD40_CMD_SHORT_DURATION_US]
    split <;> simp_all
  · unfold scd40_start_ultra_low_power scd40_start_periodic_measurement_cmd settled
    simp only [sensirion_i2c_write_cmd_with_args, sensirion_sleep_usec, SCD40_I2C_ADDRESS,
      SCD40_CMD_START_PERIODIC_MEASUREMENT_ULTRA_LOW_POWER, SCD40_CMD_SHORT_DURATION_US]
    split <;> simp_all
  · unfold scd40_stop_periodic_measurement settled
    simp only [sensirion_i2c_write_cmd, sensirion_sleep_usec, SCD40_I2C_ADDRESS,
      SCD40_CMD_STOP_PERIODIC_MEASUREMENT, SCD40_CMD_STOP_PERIODIC_MEASUREMENT_DURATION_USEC]
    split <;> simp_all
  · intro offset h0 h1
    have hr : ¬ (offset < 0 ∨ offset > 174760) := by omega
    unfold scd40_set_temperature_offset settled
    simp only [hr, if_false, sensirion_i2c_write_cmd_with_args, sensirion_sleep_usec,
      SCD40_I2C_ADDRESS, SCD40_CMD_SET_TEMPERATURE_OFFSET, SCD40_CMD_SHORT_DURATION_US]
    split <;> simp_all
  · intro altitude
    unfold scd40_set_altitude settled
    simp only [sensirion_i2c_write_cmd_with_args, sensirion_sleep_usec, SCD40_I2C_ADDRESS,
      SCD40_CMD_SET_ALTITUDE, SCD40_CMD_SHORT_DURATION_US]
    split <;> simp_all
  · intro p hp
    unfold scd40_set_ambient_pressure settled
    simp only [show ¬ p > 655 by omega, if_false, sensirion_i2c_write_cmd_with_args,
      sensirion_sleep_usec, SCD40_I2C_ADDRESS, SCD40_CMD_SET_AMBIENT_PRESSURE,
      SCD40_CMD_SHORT_DURATION_US]
    split <;> simp_all
  · unfold scd40_reset settled
    simp only [sensirion_i2c_write_cmd, sensirion_sleep_usec, SCD40_I2C_ADDRESS,
      SCD40_CMD_RESET, SCD40_CMD_SHORT_DURATION_US]
    split <;> simp_all
  · unfold scd40_factory_reset settled
    simp only [sensirion_i2c_write_cmd, sensirion_sleep_usec, SCD40_I2C_ADDRESS,
      SCD40_CMD_FACTORY_RESET, SCD40_CMD_COMMIT_EEPROM_DURATION_US]
    split <;> simp_all
  · unfold scd40_persist_settings settled
    simp only [sensirion_i2c_write_cmd, sensirion_sleep_usec, SCD40_I2C_ADDRESS,
      SCD40_CMD_COMMIT_EEPROM, SCD40_CMD_COMMIT_EEPROM_DURATION_US]
    split <;> simp_all

/-- The two commands without an early return: whatever the status of the write,
`scd40_enable_automatic_self_calibration` and `scd40_set_forced_recalibration`
sleep 10 ms once and return that status. -/
theorem settle_delay_unconditional (t : Transport) (tr : List Event) (x : Nat) :
    scd40_enable_automatic_self_calibration t tr x =
        ((t (tr ++ [Event.write_cmd_with_args 0x62 0x2416 [if x ≠ 0 then 1 else 0]])).ret,
          tr ++ [Event.write_cmd_with_args 0x62 0x2416 [if x ≠ 0 then 1 else 0],
            Event.sleep_usec 10000]) ∧
      scd40_set_forced_recalibration t tr x =
        ((t (tr ++ [Event.write_cmd_with_args 0x62 0x362F [x]])).ret,
          tr ++ [Event.write_cmd_with_args 0x62 0x362F [x], Event.sleep_usec 10000]) := by
  constructor
  · unfold scd40_enable_automatic_self_calibration
    simp [sensirion_i2c_write_cmd_with_args, sensirion_sleep_usec, SCD40_I2C_ADDRESS,
      SCD40_CMD_WRITE_AUTO_SELF_CALIBRATION, SCD40_CMD_SHORT_DURATION_US]
  · unfold scd40_set_forced_recalibration
    simp [sensirion_i2c_write_cmd_with_args, sensirion_sleep_usec, SCD40_I2C_ADDRESS,
      SCD40_CMD_SET_FORCED_RECALIBRATION, SCD40_CMD_SHORT_DURATION_US]

/-- C6, where the code departs from it. On a transport whose write fails with
status `-1`, `scd40_enable_automatic_self_calibration` and
`scd40_set_forced_recalibration` still sleep 10 ms before returning `-1`, while
`scd40_set_altitude` on the same transport returns `-1` without sleeping. -/
theorem settle_delay_after_failed_write :
    scd40_enable_automatic_self_calibration (always_fail (-1)) [] 1 =
        ((-1 : Int), [Event.write_cmd_with_args 0x62 0x2416 [1], Event.sleep_usec 10000]) ∧
      scd40_set_forced_recalibration (always_fail (-1)) [] 400 =
        ((-1 : Int), [Event.write_cmd_with_args 0x62 0x362F [400], Event.sleep_usec 10000]) ∧
      sleeps (scd40_enable_automatic_self_calibration (always_fail (-1)) [] 1).2 = [10000] ∧
      sleeps (scd40_set_forced_recalibration (always_fail (-1)) [] 400).2 = [10000] ∧
      scd40_set_altitude (always_fail (-1)) [] 400 =
        ((-1 : Int), [Event.write_cmd_with_args 0x62 0x2427 [400]]) := by
  decide

/-- On success `scd40_get_automatic_self_calibration` stores the low byte of the
word it read. -/
theorem get_automatic_self_calibration_low_byte (t : Transport) (tr : List Event)
    (asc_enabled w : Nat) (hw : w < 65536)
    (hok : t (tr ++ [Event.delayed_read_cmd 0x62 0x2313 10000 1]) = Reply.mk 0 [w]) :
    scd40_get_automatic_self_calibration t tr asc_enabled =
      ((0 : Int), w % 256, tr ++ [Event.delayed_read_cmd 0x62 0x2313 10000 1]) := by
  unfold scd40_get_automatic_self_calibration
  simp only [sensirion_i2c_delayed_read_cmd, SCD40_I2C_ADDRESS,
    SCD40_CMD_READ_AUTO_SELF_CALIBRATION, SCD40_CMD_SHORT_DURATION_US, hok, STATUS_OK]
  have e : uint8 ((word [w] 0 : Nat) : Int) = w % 256 := by
    simp only [word, List.getD_cons_zero, Nat.mod_eq_of_lt hw]
    unfold uint8
    omega
  simp [e]

/-- C7, where the code departs from it. A successful delayed read delivering the
word 2 stores 2 in `asc_enabled`, which is neither 0 nor 1; one delivering the
non-zero word 256 stores 0. -/
theorem get_automatic_self_calibration_not_boolean :
    scd40_get_automatic_self_calibration (always_ok [2]) [] 0 =
        ((0 : Int), 2, [Event.delayed_read_cmd 0x62 0x2313 10000 1]) ∧
      scd40_get_automatic_self_calibration (always_ok [256]) [] 1 =
        ((0 : Int), 0, [Event.delayed_read_cmd 0x62 0x2313 10000 1]) := by
  decide

/-- C8. A successful delayed read of `scd40_read_serial` delivering the 16-bit
words `w0, w1, w2` makes it return 0 and store `(w0 << 4) | (w1 << 2) | w2`; the
stored value is below `2 ^ 48`, so bits 48..63 of the 64-bit result are zero. -/
theorem read_serial_value (t : Transport) (tr : List Event) (serial w0 w1 w2 : Nat)
    (h0 : w0 < 65536) (h1 : w1 < 65536) (h2 : w2 < 65536)
    (hok : t (tr ++ [Event.delayed_read_cmd 0x62 0x3682 10000 3]) = Reply.mk 0 [w0, w1, w2]) :
    scd40_read_serial t tr serial =
        ((0 : Int), (w0 <<< 4) ||| (w1 <<< 2) ||| w2,
          tr ++ [Event.delayed_read_cmd 0x62 0x3682 10000 3]) ∧
      (scd40_read_serial t tr serial).2.1 < 2 ^ 48 ∧
      (scd40_read_serial t tr serial).2.1 >>> 48 = 0 := by
  have hw0 : word [w0, w1, w2] 0 = w0 := by simp [word, Nat.mod_eq_of_lt h0]
  have hw1 : word [w0, w1, w2] 1 = w1 := by simp [word, Nat.mod_eq_of_lt h1]
  have hw2 : word [w0, w1, w2] 2 = w2 := by simp [word, Nat.mod_eq_of_lt h2]
  have hs0 : uint64 (uint64 w0 <<< 4) = w0 <<< 4 := by
    unfold uint64
    rw [Nat.mod_eq_of_lt (show w0 < 18446744073709551616 by omega), Nat.shiftLeft_eq]
    omega
  have hs1 : uint64 (uint64 w1 <<< 2) = w1 <<< 2 := by
    unfold uint64
    rw [Nat.mod_eq_of_lt (show w1 < 18446744073709551616 by omega), Nat.shiftLeft_eq]
    omega
  have hs2 : uint64 w2 = w2 := by
    unfold uint64
    omega
  have hres : scd40_read_serial t tr serial =
      ((0 : Int), (w0 <<< 4) ||| (w1 <<< 2) ||| w2,
        tr ++ [Event.delayed_read_cmd 0x62 0x3682 10000 3]) := by
    unfold scd40_read_serial
    simp only [sensirion_i2c_delayed_read_cmd, SCD40_I2C_ADDRESS, SCD40_CMD_READ_SERIAL,
      SCD40_CMD_SHORT_DURATION_US, hok, hw0, hw1, hw2, hs0, hs1, hs2]
    simp
  have hlt : (w0 <<< 4) ||| (w1 <<< 2) ||| w2 < 2 ^ 48 := by
    apply Nat.or_lt_two_pow
    · apply Nat.or_lt_two_pow
      · rw [Nat.shiftLeft_eq]; omega
      · rw [Nat.shiftLeft_eq]; omega
    · omega
  rw [hres]
  refine ⟨rfl, hlt, ?_⟩
  show ((w0 <<< 4) ||| (w1 <<< 2) ||| w2) >>> 48 = 0
  rw [Nat.shiftRight_eq_div_pow]
  exact Nat.div_eq_of_lt hlt

/-- C8 on the words `(0x1234, 0x5678, 0x9ABC)`. -/
theorem read_serial_value_witness :
    scd40_read_serial (always_ok [0x1234, 0x5678, 0x9ABC]) [] 0 =
        ((0 : Int), 0x1FBFC, [Event.delayed_read_cmd 0x62 0x3682 10000 3]) ∧
      (scd40_read_serial (always_ok [0x1234, 0x5678, 0x9ABC]) [] 0).2.1 < 2 ^ 48 ∧
      (scd40_read_serial (always_ok [0x1234, 0x5678, 0x9ABC]) [] 0).2.1 >>> 48 = 0 :=
  read_serial_value (always_ok [0x1234, 0x5678, 0x9ABC]) [] 0 0x1234 0x5678 0x9ABC
    (by decide) (by decide) (by decide) rfl

/-- C9, as stated, fails for the major version: the word `0x2000` has top three
bits `001` but major version 0, and the word `0x0020` has top three bits `000`
but major version 1. -/
theorem feature_set_major_not_top_bits :
    SCD40_FEATURE_SET_MAJOR_VERSION 0x2000 = 0 ∧ 0x2000 >>> 13 = 1 ∧
      SCD40_FEATURE_SET_MAJOR_VERSION 0x0020 = 1 ∧ 0x0020 >>> 13 = 0 ∧
      ¬ (∀ fs : Nat, fs < 65536 →
        SCD40_FEATURE_SET_MAJOR_VERSION fs = fs >>> 13 ∧
          SCD40_FEATURE_SET_MINOR_VERSION fs = fs &&& 0x1F) := by
  refine ⟨by decide, by decide, by decide, by decide, ?_⟩
  intro h
  exact absurd (h 0x2000 (by decide)).1 (by decide)

/-- C9, amended. For every feature-set word `fs`,
`SCD40_FEATURE_SET_MAJOR_VERSION(fs)` is bits 5..7 of the word, the top three
bits of its low byte, and `SCD40_FEATURE_SET_MINOR_VERSION(fs)` is its bottom
five bits. -/
theorem feature_set_version_bits (fs : Nat) :
    SCD40_FEATURE_SET_MAJOR_VERSION fs = (fs % 256) >>> 5 ∧
      SCD40_FEATURE_SET_MAJOR_VERSION fs = (fs >>> 5) % 8 ∧
      SCD40_FEATURE_SET_MINOR_VERSION fs = fs % 32 := by
  have hmajor : SCD40_FEATURE_SET_MAJOR_VERSION fs = (fs >>> 5) % 8 := by
    unfold SCD40_FEATURE_SET_MAJOR_VERSION
    apply Nat.eq_of_testBit_eq
    intro i
    rw [show (8 : Nat) = 2 ^ 3 from rfl, Nat.testBit_mod_two_pow, Nat.testBit_shiftRight,
      Nat.testBit_and, Nat.testBit_shiftRight, show (0xE0 : Nat) = (2 ^ 3 - 1) <<< 5 from rfl,
      Nat.testBit_shiftLeft, Nat.testBit_two_pow_sub_one]
    simp
    by_cases h : i < 3 <;> simp [h]
  refine ⟨?_, hmajor, ?_⟩
  · rw [hmajor]
    simp only [Nat.shiftRight_eq_div_pow]
    omega
  · exact Nat.and_pow_two_sub_one_eq_mod fs 5

/-- C10. For every raw word `r` in `[0, 65535]` the `int32_t` expressions of
`scd40_read_measurement` equal the physical formulas scaled by 1000 and rounded
down: `floor(175000 * r / 65536) - 45000` and `floor(100000 * r / 65536)`. -/
theorem conversion_is_floor_of_formula (r : Nat) (hr : r ≤ 65535) :
    temperature_of_word r = ⌊(175000 * (r : ℚ)) / 65536⌋ - 45000 ∧
      humidity_of_word r = ⌊(100000 * (r : ℚ)) / 65536⌋ := by
  have hs : ∀ x : Int, x >>> (13 : Nat) = x / 8192 := fun x => by
    rw [Int.shiftRight_eq_div_pow]; norm_num
  have ht : (175000 * (r : ℚ)) / 65536 = (((175000 * r : Int) : ℚ)) / ((65536 : Nat) : ℚ) := by
    push_cast; ring
  have hh : (100000 * (r : ℚ)) / 65536 = (((100000 * r : Int) : ℚ)) / ((65536 : Nat) : ℚ) := by
    push_cast; ring
  rw [temperature_of_word_exact r (by omega), humidity_of_word_exact r (by omega), hs, hs,
    ht, hh, Rat.floor_intCast_div_natCast, Rat.floor_intCast_div_natCast]
  constructor <;> omega

/-- C10 at the raw word 27000: both sides of the temperature equation are 27097,
both sides of the humidity equation are 41198. -/
theorem conversion_is_floor_of_formula_witness :
    temperature_of_word 27000 = ⌊(175000 * ((27000 : Nat) : ℚ)) / 65536⌋ - 45000 ∧
      humidity_of_word 27000 = ⌊(100000 * ((27000 : Nat) : ℚ)) / 65536⌋ :=
  conversion_is_floor_of_formula 27000 (by decide)

/-- The value `scd40_read_serial` stores after a successful delayed read of the
16-bit words `w0, w1, w2`: no 64-bit conversion changes the shifted words. -/
theorem read_serial_stored (t : Transport) (tr : List Event) (serial w0 w1 w2 : Nat)
    (h0 : w0 < 65536) (h1 : w1 < 65536) (h2 : w2 < 65536)
    (hok : t (tr ++ [Event.delayed_read_cmd 0x62 0x3682 10000 3]) = Reply.mk 0 [w0, w1, w2]) :
    (scd40_read_serial t tr serial).1 = 0 ∧
      (scd40_read_serial t tr serial).2.1 = (w0 <<< 4) ||| (w1 <<< 2) ||| w2 := by
  have hw0 : word [w0, w1, w2] 0 = w0 := by simp [word, Nat.mod_eq_of_lt h0]
  have hw1 : word [w0, w1, w2] 1 = w1 := by simp [word, Nat.mod_eq_of_lt h1]
  have hw2 : word [w0, w1, w2] 2 = w2 := by simp [word, Nat.mod_eq_of_lt h2]
  have hs0 : uint64 (uint64 w0 <<< 4) = w0 <<< 4 := by
    unfold uint64
    rw [Nat.mod_eq_of_lt (show w0 < 18446744073709551616 by omega), Nat.shiftLeft_eq]
    omega
  have hs1 : uint64 (uint64 w1 <<< 2) = w1 <<< 2 := by
    unfold uint64
    rw [Nat.mod_eq_of_lt (show w1 < 18446744073709551616 by omega), Nat.shiftLeft_eq]
    omega
  have hs2 : uint64 w2 = w2 := by
    unfold uint64
    omega
  unfold scd40_read_serial
  simp only [sensirion_i2c_delayed_read_cmd, SCD40_I2C_ADDRESS, SCD40_CMD_READ_SERIAL,
    SCD40_CMD_SHORT_DURATION_US, hok, hw0, hw1, hw2, hs0, hs1, hs2]
  simp

/-- C11. After a successful delayed read of any 16-bit words `w0, w1, w2`, the
serial number stored by `scd40_read_serial` is below `2 ^ 20`; and the serial
does not identify the words: there are two distinct triples of 16-bit words,
each read successfully, that store the same serial value. -/
theorem read_serial_at_most_20_bits (t : Transport) (tr : List Event) (serial w0 w1 w2 : Nat)
    (h0 : w0 < 65536) (h1 : w1 < 65536) (h2 : w2 < 65536)
    (hok : t (tr ++ [Event.delayed_read_cmd 0x62 0x3682 10000 3]) = Reply.mk 0 [w0, w1, w2]) :
    (scd40_read_serial t tr serial).1 = 0 ∧
      (scd40_read_serial t tr serial).2.1 < 2 ^ 20 ∧
      ∃ a0 a1 a2 b0 b1 b2 : Nat,
        a0 < 65536 ∧ a1 < 65536 ∧ a2 < 65536 ∧ b0 < 65536 ∧ b1 < 65536 ∧ b2 < 65536 ∧
        (a0, a1, a2) ≠ (b0, b1, b2) ∧
        (scd40_read_serial (always_ok [a0, a1, a2]) tr serial).1 = 0 ∧
        (scd40_read_serial (always_ok [b0, b1, b2]) tr serial).1 = 0 ∧
        (scd40_read_serial (always_ok [a0, a1, a2]) tr serial).2.1 =
          (scd40_read_serial (always_ok [b0, b1, b2]) tr serial).2.1 := by
  have hv := read_serial_stored t tr serial w0 w1 w2 h0 h1 h2 hok
  refine ⟨hv.1, ?_, ?_⟩
  · rw [hv.2]
    apply Nat.or_lt_two_pow
    · apply Nat.or_lt_two_pow
      · rw [Nat.shiftLeft_eq]; omega
      · rw [Nat.shiftLeft_eq]; omega
    · omega
  · have ha := read_serial_stored (always_ok [0, 1, 0]) tr serial 0 1 0
      (by decide) (by decide) (by decide) rfl
    have hb := read_serial_stored (always_ok [0, 0, 4]) tr serial 0 0 4
      (by decide) (by decide) (by decide) rfl
    refine ⟨0, 1, 0, 0, 0, 4, by decide, by decide, by decide, by decide, by decide,
      by decide, by decide, ha.1, hb.1, ?_⟩
    rw [ha.2, hb.2]
    decide

/-- C11 on the largest words, `(0xFFFF, 0xFFFF, 0xFFFF)`: the serial stored is
`0xFFFFF`, the largest value below `2 ^ 20`. -/
theorem read_serial_at_most_20_bits_witness :
    (scd40_read_serial (always_ok [0xFFFF, 0xFFFF, 0xFFFF]) [] 0).2.1 = 0xFFFFF ∧
      (scd40_read_serial (always_ok [0xFFFF, 0xFFFF, 0xFFFF]) [] 0).2.1 < 2 ^ 20 ∧
      (scd40_read_serial (always_ok [0, 1, 0]) [] 0).2.1 =
        (scd40_read_serial (always_ok [0, 0, 4]) [] 0).2.1 :=
  ⟨by decide,
    (read_serial_at_most_20_bits (always_ok [0xFFFF, 0xFFFF, 0xFFFF]) [] 0 0xFFFF 0xFFFF 0xFFFF
      (by decide) (by decide) (by decide) rfl).2.1,
    by decide⟩

end SCD40
